import Mathlib

/-!
Verification of the iboothme ideation workflow (`src/idea_new.py`).

The program is a prompt-orchestration pipeline: keyword extraction,
inspiration search, keyword merging, idea generation and per-keyword
summarization, stitched together by `main_workflow`.  The external
text-generation service is modelled as an `Oracle` whose calls either
return the raw response text or fail with an error message (`Except`);
the randomness of `random.sample` and `random.choice` is supplied as
explicit parameters.  All string manipulation from the source is
embedded over `List Char`, with Python semantics (`strip`, `lower`,
`split`, `title`, substring membership) reproduced by executable
definitions.
-/

/-! ## Python string primitives -/

/-- Whitespace characters recognised by Python `str.strip()` (ASCII range):
space, tab, newline, carriage return, vertical tab, form feed. -/
def pySpace (c : Char) : Bool :=
  c = ' ' || c = '\t' || c = '\n' || c = '\r' || c = Char.ofNat 11 || c = Char.ofNat 12

/-- Python `str.strip()`: drop leading and trailing whitespace. -/
def pyStrip (s : String) : String :=
  String.mk (((s.data.dropWhile pySpace).reverse.dropWhile pySpace).reverse)

/-- Python `str.lower()` (ASCII case folding, as used on keyword fragments). -/
def pyLower (s : String) : String :=
  String.mk (s.data.map Char.toLower)

/-- Split a character list at every delimiter character, keeping empty
fragments, as Python `re.split` with a single-character class and
`str.split` with a one-character separator both do. -/
def splitChars (p : Char → Bool) : List Char → List (List Char)
  | [] => [[]]
  | c :: cs =>
    if p c then [] :: splitChars p cs
    else
      match splitChars p cs with
      | [] => [[c]]
      | hd :: tl => (c :: hd) :: tl

/-- String version of `splitChars`. -/
def pySplitAny (p : Char → Bool) (s : String) : List String :=
  (splitChars p s.data).map String.mk

/-- Python `content.split("\n")`. -/
def splitLines (s : String) : List String :=
  pySplitAny (fun c => c = '\n') s

/-- Bool-valued substring test over character lists (Python `needle in s`). -/
def containsSubstrChars (needle : List Char) : List Char → Bool
  | [] => needle.isEmpty
  | c :: cs => needle.isPrefixOf (c :: cs) || containsSubstrChars needle cs

/-- Python substring membership `needle in s`. -/
def pyContains (needle s : String) : Bool :=
  containsSubstrChars needle.data s.data

/-- Split at the first occurrence of `sep`, or `none` when `sep` does not
occur (Python `s.split(sep, 1)` returning two parts vs one). -/
def splitOnFirstChars (sep : List Char) : List Char → Option (List Char × List Char)
  | [] => none
  | c :: cs =>
    if sep.isPrefixOf (c :: cs) then some ([], (c :: cs).drop sep.length)
    else
      match splitOnFirstChars sep cs with
      | some (l, r) => some (c :: l, r)
      | none => none

/-- Python `s.split(sep, 1)` when it yields exactly two parts. -/
def pySplit1 (sep s : String) : Option (String × String) :=
  (splitOnFirstChars sep.data s.data).map (fun p => (String.mk p.1, String.mk p.2))

/-- Python `sep.join(parts)`. -/
def joinWith (sep : String) : List String → String
  | [] => ""
  | [x] => x
  | x :: y :: xs => x ++ sep ++ joinWith sep (y :: xs)

/-- Helper for Python `str.title()`: the flag records whether the previous
character was alphabetic. -/
def pyTitleAux : Bool → List Char → List Char
  | _, [] => []
  | prevAlpha, c :: cs =>
    (if c.isAlpha then (if prevAlpha then c.toLower else c.toUpper) else c)
      :: pyTitleAux c.isAlpha cs

/-- Python `str.title()` as used on keyword labels. -/
def pyTitle (s : String) : String :=
  String.mk (pyTitleAux false s.data)

/-! ## External-call and randomness model -/

/-- The text-generation service boundary.  `chat` models
`client.chat.completions.create` returning the message content for a
given prompt; `search` models `client.responses.create` with the
web-search tool returning `output_text` for a given input.  A failing
call is an `Except.error` carrying the exception's message. -/
structure Oracle where
  chat : String → Except String String
  search : String → Except String String

/-- Trace of the externally visible steps a workflow run performs. -/
inductive Event where
  | sampling : Event
  | chatCall : String → Event
  | searchCall : String → Event
deriving DecidableEq

/-- Message of the `ValueError` that Python `random.sample` raises when the
population is smaller than the requested sample size (`InsufficientCatalogError`
in the specification's terms). -/
def InsufficientCatalogError : String :=
  "Sample larger than population or is negative"

/-- One drawing step of `random.sample`: pick the element at a
randomly chosen index of the remaining population and recurse on the
population with that element removed.  `choice` supplies the randomness
(one natural number per step, reduced modulo the remaining size). -/
def drawAux (choice : Nat → Nat) : Nat → Nat → List String → List String
  | 0, _, _ => []
  | Nat.succ _, _, [] => []
  | Nat.succ k, i, p :: ps =>
    (p :: ps).getD (choice i % (p :: ps).length) p
      :: drawAux choice k (i + 1) ((p :: ps).erase ((p :: ps).getD (choice i % (p :: ps).length) p))

/-- Python `random.sample(population, k)`: `k` distinct draws without
replacement (the population here is a list of distinct dict keys), a
`ValueError` when `k` exceeds the population size. -/
def randomSample (population : List String) (k : Nat) (choice : Nat → Nat) :
    Except String (List String) :=
  if k ≤ population.length then Except.ok (drawAux choice k 0 population)
  else Except.error InsufficientCatalogError

/-! ## Embedded program (`src/idea_new.py`) -/

/-- Loop body of `get_product_descriptions` (lines 24–30): look each name up
in the catalog, keep a `**name**\ndescription` block when the description is
present and non-empty (Python truthiness of `desc`). -/
def descEntries (catalog : List (String × String)) : List String → List String
  | [] => []
  | name :: rest =>
    match catalog.lookup name with
    | some desc =>
      if desc = "" then descEntries catalog rest
      else ("**" ++ name ++ "**\n" ++ desc) :: descEntries catalog rest
    | none => descEntries catalog rest

/-- `get_product_descriptions` (lines 24–30): the surviving blocks joined by
blank lines. -/
def get_product_descriptions (catalog : List (String × String))
    (product_names : List String) : String :=
  joinWith "\n\n" (descEntries catalog product_names)

/-- Prompt template of `extract_keywords` (lines 34–45). -/
def extractKeywordsPrompt (paragraph : String) : String :=
  "\nYou are an expert in experiential event planning.\n\nExtract 5-10 short, specific, and thematic keywords or concepts from the event description below. These will be used to inspire immersive, tech-powered event ideas.\n\nEach keyword should be 2-4 words long and describe a concrete idea or theme (e.g., \"photo booths\", \"smart vending\", \"interactive storytelling\").\n\nEvent Description:\n\"" ++ paragraph ++ "\"\n\nReturn the keywords as a comma-separated list.\n"

/-- Response parsing shared by both keyword extractors (lines 53 and 74):
split the raw text on commas and newlines, keep the fragments that are
non-empty after stripping, stripped and lower-cased. -/
def splitKeywords (raw : String) : List String :=
  (pySplitAny (fun c => c = ',' || c = '\n') raw).filterMap
    (fun kw => if pyStrip kw = "" then none else some (pyLower (pyStrip kw)))

/-- `extract_keywords` (lines 33–53): one chat call on the templated prompt,
parsed by `splitKeywords`; a failing call propagates. -/
def extract_keywords (o : Oracle) (paragraph : String) : Except String (List String) :=
  (o.chat (extractKeywordsPrompt paragraph)).map splitKeywords

/-- Prompt template of `extract_keywords_from_title_and_link` (lines 57–66). -/
def titleLinkPrompt (title link : String) : String :=
  "\nYou are an expert in event innovation.\n\nGiven the title and link below, extract 3-5 short, specific, and meaningful keywords or themes (2-4 words each) that describe what the page is about.\n\nTitle: " ++ title ++ "\nLink: " ++ link ++ "\n\nReturn the keywords as a comma-separated list.\n"

/-- `extract_keywords_from_title_and_link` (lines 56–74). -/
def extract_keywords_from_title_and_link (o : Oracle) (title link : String) :
    Except String (List String) :=
  (o.chat (titleLinkPrompt title link)).map splitKeywords

/-- Input text of the retrieval-augmented search call (line 78). -/
def searchInput (keywords : List String) : String :=
  "Generate 10 useful URLs for experiential event ideas or iboothme.com inspiration related to the keywords: " ++ joinWith ", " keywords

/-- Per-line parsing of the search response (lines 89–94): split on the first
" - "; two parts give (stripped title, stripped url), otherwise the stripped
line is used as both. -/
def parseLine (line : String) : String × String :=
  match pySplit1 " - " line with
  | some (t, u) => (pyStrip t, pyStrip u)
  | none => (pyStrip line, pyStrip line)

/-- Response-scanning loop of the search (lines 87–94): keep the lines
containing "http", parsed, in order. -/
def collectLinks : List String → List (String × String)
  | [] => []
  | line :: rest =>
    if pyContains "http" line then parseLine line :: collectLinks rest
    else collectLinks rest

/-- Full parsing of one search response (lines 85–95), capped at 10 pairs. -/
def parseLinks (content : String) : List (String × String) :=
  (collectLinks (splitLines content)).take 10

/-- `search_similar_events_and_products_openai` (lines 77–98): one search
call; any failure is swallowed and yields the empty list. -/
def search_similar_events_and_products_openai (o : Oracle) (keywords : List String) :
    List (String × String) :=
  match o.search (searchInput keywords) with
  | Except.ok content => parseLinks content
  | Except.error _ => []

/-- The ASCII apostrophe, code point 39, as it occurs in the source prompt. -/
def apos : String := String.mk [Char.ofNat 39]

/-- The conditional game clause of `generate_event_ideas` (lines 109–110):
the fixed sentence when some keyword contains "game", the empty string
otherwise. -/
def gameClause : String :=
  "Include at least two game-related ideas (e.g., quiz game, vending challenge)."

/-- `game_instruction` of `generate_event_ideas` (line 110). -/
def game_instruction (all_keywords : List String) : String :=
  if all_keywords.any (fun kw => pyContains "game" kw) then gameClause else ""

/-- `search_summary` of `generate_event_ideas` (line 108). -/
def searchSummary (search_links : List (String × String)) : String :=
  joinWith "\n" (search_links.map (fun tu => "- " ++ tu.1 ++ ": " ++ tu.2))

/-- Idea-prompt literal up to the first interpolation `{product_info}`. -/
def ideaPromptP1 : String :=
  "\nYou are an expert event strategist for iboothme, a company offering creative experiences like AI photo booths, smart vending machines, audio booths, personalization stations, and immersive visual storytelling.\n\nBelow are full descriptions of three randomly selected iboothme products, to keep all ideas on-brand:\n"

/-- Idea-prompt literal between `{product_info}` and `{idea_count}`. -/
def ideaPromptP2 : String :=
  "\n\nBased on the event description below, generate "

/-- Idea-prompt literal between `{idea_count}` and `{paragraph}`. -/
def ideaPromptP3 : String :=
  " unique and diverse iboothme-powered event ideas.\nMake sure that the syntax of the brand is always \"iboothme\" (all lowercase).\n\n**Event Description:**\n"

/-- Idea-prompt literal between `{paragraph}` and `{search_summary}`. -/
def ideaPromptP4 : String :=
  "\n\n**Inspiration from Related Ideas:**\n"

/-- Idea-prompt literal from `{search_summary}` up to the hardcoded
"At least two game-related ideas" requirement line. -/
def ideaPromptP5a : String :=
  "\n\n💡 **Your Task:**\nCreate ideas that are immersive, memorable, and creatively use iboothme" ++ apos ++ "s photo, video, and audio-based technologies. Do not use AR, VR, projection mapping, or other tech-heavy elements.\n\nYou must include:\n- "

/-- The hardcoded game requirement of the "You must include" section
(line 131). -/
def mustIncludeGameLine : String := "At least two game-related ideas"

/-- Idea-prompt literal from after the game requirement line up to
`{game_instruction}`. -/
def ideaPromptP5b : String :=
  "\n- Studio Ghibli-inspired visuals in one idea\n- Personalized giveaways (e.g., custom t-shirts, stickers, Labibu dolls)\n"

/-- Idea-prompt literal after `{game_instruction}` to the end. -/
def ideaPromptP6 : String :=
  "\n\n❗ Important:\n- Avoid AR, VR, holograms, or projection domes\n- Do not repeat photo‑booth formats\n- Every idea should have a creative title\n- Each idea should be described in a paragraph\n- Immediately after, write a second paragraph describing the user journey flow\n\nReturn **only** the final ideas in markdown format.\n"

/-- The full prompt of `generate_event_ideas` (lines 112–144), the f-string
with its five interpolations. -/
def ideaPrompt (paragraph product_info : String) (search_links : List (String × String))
    (all_keywords : List String) (idea_count : Nat) : String :=
  ideaPromptP1 ++ product_info ++ ideaPromptP2 ++ Nat.repr idea_count ++ ideaPromptP3
    ++ paragraph ++ ideaPromptP4 ++ searchSummary search_links
    ++ ideaPromptP5a ++ mustIncludeGameLine ++ ideaPromptP5b
    ++ game_instruction all_keywords ++ ideaPromptP6

/-- `generate_event_ideas` (lines 101–151): build the prompt, one chat
call, return its content. -/
def generate_event_ideas (o : Oracle) (paragraph product_info : String)
    (search_links : List (String × String)) (all_keywords : List String)
    (idea_count : Nat) : Except String String :=
  o.chat (ideaPrompt paragraph product_info search_links all_keywords idea_count)

/-- Lexicographic comparison of character lists by code point, the order
Python `sorted` uses on strings. -/
def strLeChars : List Char → List Char → Bool
  | [], _ => true
  | _ :: _, [] => false
  | c :: cs, d :: ds =>
    if c.toNat < d.toNat then true
    else if d.toNat < c.toNat then false
    else strLeChars cs ds

/-- Python string comparison `s <= t`. -/
def pyStrLe (s t : String) : Bool := strLeChars s.data t.data

/-- The order relation `sorted` sorts keywords by. -/
def keyLe (a b : String) : Prop := pyStrLe a b = true

instance : DecidableRel keyLe := fun a b => instDecidableEqBool (pyStrLe a b) true

/-- Keyword merge of the workflow (line 180): `sorted(set(base_kw + link_kw))`,
the deduplicated, lexicographically sorted set of the concatenation. -/
def mergeKeywords (base_kw link_kw : List String) : List String :=
  List.insertionSort keyLe ((base_kw ++ link_kw).dedup)

/-- Per-link extraction loop of the workflow (lines 175–179): sequential,
appending each link's keywords; the first failing call aborts the loop.
Returns the result together with the chat calls performed. -/
def linkKeywordsLoop (o : Oracle) :
    List (String × String) → Except String (List String) × List Event
  | [] => (Except.ok [], [])
  | (t, u) :: rest =>
    match o.chat (titleLinkPrompt t u) with
    | Except.error e => (Except.error e, [Event.chatCall (titleLinkPrompt t u)])
    | Except.ok raw =>
      match linkKeywordsLoop o rest with
      | (Except.error e, evs) =>
        (Except.error e, Event.chatCall (titleLinkPrompt t u) :: evs)
      | (Except.ok more, evs) =>
        (Except.ok (splitKeywords raw ++ more), Event.chatCall (titleLinkPrompt t u) :: evs)

/-- Summarization prompt of the workflow (line 203). -/
def summarizePrompt (kw : String) : String :=
  "Give a short one-line event idea description using the keyword: " ++ kw

/-- The bullet one keyword contributes to the summary section
(lines 199–211): title-cased label with the stripped description on
success, the bare label on failure. -/
def bulletFor (o : Oracle) (kw : String) : String :=
  match o.chat (summarizePrompt kw) with
  | Except.ok raw => "- **" ++ pyTitle kw ++ "**: " ++ pyStrip raw
  | Except.error _ => "- **" ++ pyTitle kw ++ "**"

/-- Summarization loop of the workflow (lines 197–211): one bullet appended
per keyword, each summarized independently, with the chat calls performed. -/
def summarizeLoop (o : Oracle) : List String → List String × List Event
  | [] => ([], [])
  | kw :: rest =>
    match summarizeLoop o rest with
    | (bullets, evs) =>
      ((match o.chat (summarizePrompt kw) with
        | Except.ok raw => "- **" ++ pyTitle kw ++ "**: " ++ pyStrip raw
        | Except.error _ => "- **" ++ pyTitle kw ++ "**") :: bullets,
       Event.chatCall (summarizePrompt kw) :: evs)

/-- The fixed validation message for empty input (line 158). -/
def validationMessage : String := "❌ Please enter an event description."

/-- The idea-count pool of stage 3 (line 188). -/
def ideaCounts : List Nat := [5, 6, 7, 8]

/-- `main_workflow` (lines 154–220).  `catalog` is `PRODUCT_CATALOG` as an
association list with the dict's distinct keys; `sampleChoice` is the
randomness of `random.sample`, `ideaChoice` that of `random.choice`.
Returns the displayed markdown string together with the trace of the
sampling, chat and search steps performed. -/
def main_workflow (catalog : List (String × String)) (o : Oracle)
    (sampleChoice : Nat → Nat) (ideaChoice : Nat) (paragraph : String) :
    String × List Event :=
  if pyStrip paragraph = "" then (validationMessage, [])
  else
    match randomSample (catalog.map Prod.fst) 4 sampleChoice with
    | Except.error e => ("❌ Error selecting products: " ++ e, [Event.sampling])
    | Except.ok gadget_names =>
      let product_info := get_product_descriptions catalog gadget_names
      match o.chat (extractKeywordsPrompt paragraph) with
      | Except.error e =>
        ("❌ Error in keyword extraction or web search: " ++ e,
         [Event.sampling, Event.chatCall (extractKeywordsPrompt paragraph)])
      | Except.ok rawBase =>
        let base_kw := splitKeywords rawBase
        let links := search_similar_events_and_products_openai o base_kw
        match linkKeywordsLoop o links with
        | (Except.error e, linkEvs) =>
          ("❌ Error in keyword extraction or web search: " ++ e,
           [Event.sampling, Event.chatCall (extractKeywordsPrompt paragraph),
            Event.searchCall (searchInput base_kw)] ++ linkEvs)
        | (Except.ok link_kw, linkEvs) =>
          let all_kw := mergeKeywords base_kw link_kw
          let idea_count := ideaCounts.getD (ideaChoice % 4) 5
          let prompt := ideaPrompt paragraph product_info links all_kw idea_count
          match o.chat prompt with
          | Except.error e =>
            ("❌ Error generating ideas: " ++ e,
             [Event.sampling, Event.chatCall (extractKeywordsPrompt paragraph),
              Event.searchCall (searchInput base_kw)] ++ linkEvs
              ++ [Event.chatCall prompt])
          | Except.ok ideas_md =>
            match summarizeLoop o (all_kw.take 10) with
            | (summaries, sumEvs) =>
              ("\n🌐 **Relevant Keywords Summary:**  \n" ++ joinWith "\n" summaries
                 ++ "\n\n" ++ ideas_md ++ "\n",
               [Event.sampling, Event.chatCall (extractKeywordsPrompt paragraph),
                Event.searchCall (searchInput base_kw)] ++ linkEvs
                ++ [Event.chatCall prompt] ++ sumEvs)

/-! ## Order facts for the keyword comparison -/

lemma charEqOfToNatEq {c d : Char} (h : c.toNat = d.toNat) : c = d :=
  Char.ext (UInt32.toNat.inj h)

lemma strLeChars_total : ∀ l m : List Char, strLeChars l m = true ∨ strLeChars m l = true
  | [], _ => Or.inl rfl
  | _ :: _, [] => Or.inr rfl
  | c :: cs, d :: ds => by
    by_cases h1 : c.toNat < d.toNat
    · left; simp [strLeChars, h1]
    · by_cases h2 : d.toNat < c.toNat
      · right; simp [strLeChars, h2]
      · rcases strLeChars_total cs ds with h | h
        · left; simp [strLeChars, h1, h2, h]
        · right; simp [strLeChars, h1, h2, h]

lemma strLeChars_trans :
    ∀ l m n : List Char, strLeChars l m = true → strLeChars m n = true →
      strLeChars l n = true
  | [], _, _, _, _ => rfl
  | _ :: _, [], _, h1, _ => by simp [strLeChars] at h1
  | _ :: _, _ :: _, [], _, h2 => by simp [strLeChars] at h2
  | a :: as, b :: bs, c :: cs, h1, h2 => by
    simp only [strLeChars] at h1 h2 ⊢
    by_cases hab : a.toNat < b.toNat
    · by_cases hbc : b.toNat < c.toNat
      · have hac : a.toNat < c.toNat := by omega
        simp [hac]
      · by_cases hcb : c.toNat < b.toNat
        · simp [hbc, hcb] at h2
        · have hac : a.toNat < c.toNat := by omega
          simp [hac]
    · by_cases hba : b.toNat < a.toNat
      · simp [hab, hba] at h1
      · simp [hab, hba] at h1
        by_cases hbc : b.toNat < c.toNat
        · have hac : a.toNat < c.toNat := by omega
          simp [hac]
        · by_cases hcb : c.toNat < b.toNat
          · simp [hbc, hcb] at h2
          · simp [hbc, hcb] at h2
            have h3 := strLeChars_trans as bs cs h1 h2
            have hac1 : ¬ a.toNat < c.toNat := by omega
            have hac2 : ¬ c.toNat < a.toNat := by omega
            simp [hac1, hac2, h3]

lemma strLeChars_antisymm :
    ∀ l m : List Char, strLeChars l m = true → strLeChars m l = true → l = m
  | [], [], _, _ => rfl
  | [], _ :: _, _, h2 => by simp [strLeChars] at h2
  | _ :: _, [], h1, _ => by simp [strLeChars] at h1
  | a :: as, b :: bs, h1, h2 => by
    by_cases hab : a.toNat < b.toNat
    · have hba : ¬ b.toNat < a.toNat := by omega
      simp [strLeChars, hab, hba] at h2
    · by_cases hba : b.toNat < a.toNat
      · simp [strLeChars, hab, hba] at h1
      · simp [strLeChars, hab, hba] at h1 h2
        have heq : a = b := charEqOfToNatEq (by omega)
        rw [heq, strLeChars_antisymm as bs h1 h2]

instance : IsTotal String keyLe :=
  ⟨fun a b => strLeChars_total a.data b.data⟩

instance : IsTrans String keyLe :=
  ⟨fun a b c => strLeChars_trans a.data b.data c.data⟩

instance : IsAntisymm String keyLe :=
  ⟨fun a b h1 h2 => String.ext (strLeChars_antisymm a.data b.data h1 h2)⟩

/-! ## Properties of the keyword merge -/

lemma merge_mem (base_kw link_kw : List String) (a : String) :
    a ∈ mergeKeywords base_kw link_kw ↔ a ∈ base_kw ∨ a ∈ link_kw := by
  unfold mergeKeywords
  rw [(List.perm_insertionSort _ _).mem_iff, List.mem_dedup, List.mem_append]

lemma merge_nodup (base_kw link_kw : List String) : (mergeKeywords base_kw link_kw).Nodup :=
  (List.perm_insertionSort _ _).nodup_iff.mpr (List.nodup_dedup _)

lemma merge_sorted (base_kw link_kw : List String) :
    (mergeKeywords base_kw link_kw).Sorted keyLe :=
  List.sorted_insertionSort _ _

lemma merge_canonical (base_kw link_kw l : List String) (hs : l.Sorted keyLe)
    (hn : l.Nodup) (hm : ∀ a, a ∈ l ↔ a ∈ base_kw ∨ a ∈ link_kw) :
    l = mergeKeywords base_kw link_kw :=
  List.eq_of_perm_of_sorted
    ((List.perm_ext_iff_of_nodup hn (merge_nodup base_kw link_kw)).mpr
      (fun a => (hm a).trans (merge_mem base_kw link_kw a).symm))
    hs (merge_sorted base_kw link_kw)

/-- Stub oracle whose every call fails. -/
def stubOracle : Oracle :=
  { chat := fun _ => Except.error "boom", search := fun _ => Except.error "boom" }

/-! ## Claims -/

/-- C1: for every input paragraph that is empty or whitespace-only, the
workflow returns the fixed user-facing validation message and performs no
other stage: the trace of sampling, chat and search steps is empty, whatever
the catalog, the oracle and the randomness are. -/
theorem empty_input_short_circuits (catalog : List (String × String)) (o : Oracle)
    (sampleChoice : Nat → Nat) (ideaChoice : Nat) (paragraph : String)
    (h : pyStrip paragraph = "") :
    main_workflow catalog o sampleChoice ideaChoice paragraph = (validationMessage, []) := by
  simp [main_workflow, h]

/-- Witness for C1 at the whitespace-only paragraph `"   "`. -/
theorem empty_input_short_circuits_witness :
    pyStrip "   " = "" ∧
      main_workflow [("iboothme X", "a booth")] stubOracle (fun _ => 0) 0 "   "
        = (validationMessage, []) :=
  ⟨by decide,
   empty_input_short_circuits [("iboothme X", "a booth")] stubOracle (fun _ => 0) 0 "   "
     (by decide)⟩

/-- C4: merging base keywords with link keywords yields the deduplicated,
lexicographically sorted set of their elements; the merge is idempotent in
the sense that merging the merged result with either input again yields the
same list, and merging `["b","a"]` with `["a","c"]` yields `["a","b","c"]`. -/
theorem merge_keywords_sorted_dedup_idempotent (base_kw link_kw : List String) :
    (mergeKeywords base_kw link_kw).Sorted keyLe
    ∧ (mergeKeywords base_kw link_kw).Nodup
    ∧ (∀ a, a ∈ mergeKeywords base_kw link_kw ↔ a ∈ base_kw ∨ a ∈ link_kw)
    ∧ mergeKeywords (mergeKeywords base_kw link_kw) link_kw = mergeKeywords base_kw link_kw
    ∧ mergeKeywords (mergeKeywords base_kw link_kw) base_kw = mergeKeywords base_kw link_kw
    ∧ mergeKeywords ["b", "a"] ["a", "c"] = ["a", "b", "c"] := by
  refine ⟨merge_sorted _ _, merge_nodup _ _, merge_mem _ _, ?_, ?_, by decide⟩
  · refine (merge_canonical _ _ _ (merge_sorted base_kw link_kw) (merge_nodup base_kw link_kw)
      (fun a => ?_)).symm
    constructor
    · exact fun h => Or.inl h
    · rintro (h | h)
      · exact h
      · exact (merge_mem base_kw link_kw a).mpr (Or.inr h)
  · refine (merge_canonical _ _ _ (merge_sorted base_kw link_kw) (merge_nodup base_kw link_kw)
      (fun a => ?_)).symm
    constructor
    · exact fun h => Or.inl h
    · rintro (h | h)
      · exact h
      · exact (merge_mem base_kw link_kw a).mpr (Or.inl h)

/-- C3: both keyword extractors parse the raw model response by splitting on
commas and newlines, stripping and lower-casing each fragment and dropping
the fragments that are empty after stripping; the raw text `"a, b\nc ,, d"`
yields exactly `["a","b","c","d"]`. -/
theorem keyword_extraction_splitting_spec (o : Oracle)
    (paragraph title link raw : String) :
    (o.chat (extractKeywordsPrompt paragraph) = Except.ok raw →
      extract_keywords o paragraph = Except.ok (splitKeywords raw))
    ∧ (o.chat (titleLinkPrompt title link) = Except.ok raw →
      extract_keywords_from_title_and_link o title link = Except.ok (splitKeywords raw))
    ∧ (∀ kw ∈ splitKeywords raw,
        ∃ frag ∈ pySplitAny (fun c => c = ',' || c = '\n') raw,
          pyStrip frag ≠ "" ∧ kw = pyLower (pyStrip frag))
    ∧ splitKeywords "a, b\nc ,, d" = ["a", "b", "c", "d"] := by
  refine ⟨fun h => ?_, fun h => ?_, fun kw hkw => ?_, by decide⟩
  · simp [extract_keywords, h, Except.map]
  · simp [extract_keywords_from_title_and_link, h, Except.map]
  · rw [splitKeywords, List.mem_filterMap] at hkw
    obtain ⟨frag, hfrag, hval⟩ := hkw
    by_cases he : pyStrip frag = ""
    · simp [he] at hval
    · simp only [he, if_false] at hval
      exact ⟨frag, hfrag, he, (Option.some.inj hval).symm⟩

/-- C6: the workflow summarizes exactly the first 10 merged keywords (all
of them when fewer), each independently; a keyword whose summarization call
fails still contributes the bare capitalized bullet, and the summary list
has one bullet per processed keyword. -/
theorem summarization_per_keyword_degradation (o : Oracle) (all_kw : List String) :
    (summarizeLoop o (all_kw.take 10)).1 = (all_kw.take 10).map (bulletFor o)
    ∧ ((summarizeLoop o (all_kw.take 10)).1).length = min 10 all_kw.length
    ∧ (summarizeLoop o (all_kw.take 10)).2
        = (all_kw.take 10).map (fun kw => Event.chatCall (summarizePrompt kw))
    ∧ (∀ kw e, o.chat (summarizePrompt kw) = Except.error e →
        bulletFor o kw = "- **" ++ pyTitle kw ++ "**")
    ∧ (∀ kw raw, o.chat (summarizePrompt kw) = Except.ok raw →
        bulletFor o kw = "- **" ++ pyTitle kw ++ "**: " ++ pyStrip raw) := by
  have hmap : ∀ l : List String, (summarizeLoop o l).1 = l.map (bulletFor o)
      ∧ (summarizeLoop o l).2 = l.map (fun kw => Event.chatCall (summarizePrompt kw)) := by
    intro l
    induction l with
    | nil => exact ⟨rfl, rfl⟩
    | cons kw rest ih =>
      simp only [summarizeLoop, List.map_cons]
      rw [bulletFor]
      exact ⟨by rw [ih.1], by rw [ih.2]⟩
  refine ⟨(hmap _).1, ?_, (hmap _).2, fun kw e h => ?_, fun kw raw h => ?_⟩
  · rw [(hmap _).1, List.length_map, List.length_take]
  · simp [bulletFor, h]
  · simp [bulletFor, h]

/-- The block `get_product_descriptions` keeps for one name: `none` when the
name is absent from the catalog or its description is empty. -/
def entryFor (catalog : List (String × String)) (name : String) : Option String :=
  match catalog.lookup name with
  | some desc => if desc = "" then none else some ("**" ++ name ++ "**\n" ++ desc)
  | none => none

/-- C10: `get_product_descriptions` is total and silently skips names that
are absent from the catalog or have an empty description: the output joins,
in input order, one block per surviving name, so there may be fewer blocks
than names. -/
theorem product_descriptions_skip_missing (catalog : List (String × String))
    (names : List String) :
    descEntries catalog names = names.filterMap (entryFor catalog)
    ∧ get_product_descriptions catalog names
        = joinWith "\n\n" (names.filterMap (entryFor catalog))
    ∧ (descEntries catalog names).length ≤ names.length
    ∧ (∀ name, catalog.lookup name = none → entryFor catalog name = none)
    ∧ (∀ name, catalog.lookup name = some "" → entryFor catalog name = none)
    ∧ (∀ name desc, catalog.lookup name = some desc → desc ≠ "" →
        entryFor catalog name = some ("**" ++ name ++ "**\n" ++ desc)) := by
  have heq : ∀ l : List String, descEntries catalog l = l.filterMap (entryFor catalog) := by
    intro l
    induction l with
    | nil => rfl
    | cons name rest ih =>
      simp only [descEntries, List.filterMap_cons, entryFor]
      cases h : catalog.lookup name with
      | none => exact ih
      | some desc =>
        by_cases hd : desc = ""
        · simp [hd, ih]
        · simp [hd, ih]
  refine ⟨heq names, ?_, ?_, fun name h => ?_, fun name h => ?_, fun name desc h hd => ?_⟩
  · rw [get_product_descriptions, heq names]
  · rw [heq names]; exact List.length_filterMap_le _ _
  · simp [entryFor, h]
  · simp [entryFor, h]
  · simp [entryFor, h, hd]

/-- Summarization depends on the oracle only through its chat component. -/
lemma summarizeLoop_congr (o₁ o₂ : Oracle) (h : o₁.chat = o₂.chat) :
    ∀ l, summarizeLoop o₁ l = summarizeLoop o₂ l
  | [] => rfl
  | kw :: rest => by
    simp only [summarizeLoop, h, summarizeLoop_congr o₁ o₂ h rest]

/-- C5: the inspiration search never propagates a failure: with a failing
search call it returns the empty link list, with an empty response it also
returns the empty list, and the whole workflow behaves exactly as if the
search had returned no text at all, proceeding with the keywords it already
has. -/
theorem inspiration_search_failure_degrades (catalog : List (String × String))
    (o : Oracle) (sampleChoice : Nat → Nat) (ideaChoice : Nat)
    (paragraph : String) (keywords : List String) (e : String) :
    search_similar_events_and_products_openai
        { chat := o.chat, search := fun _ => Except.error e } keywords = []
    ∧ search_similar_events_and_products_openai
        { chat := o.chat, search := fun _ => Except.ok "" } keywords = []
    ∧ main_workflow catalog { chat := o.chat, search := fun _ => Except.error e }
        sampleChoice ideaChoice paragraph
      = main_workflow catalog { chat := o.chat, search := fun _ => Except.ok "" }
          sampleChoice ideaChoice paragraph := by
  refine ⟨rfl, rfl, ?_⟩
  by_cases h : pyStrip paragraph = ""
  · simp [main_workflow, h]
  · simp only [main_workflow, if_neg h]
    cases hs : randomSample (catalog.map Prod.fst) 4 sampleChoice with
    | error e' => rfl
    | ok gadget_names =>
      cases hc : o.chat (extractKeywordsPrompt paragraph) with
      | error e' => rfl
      | ok rawBase =>
        dsimp only
        have hc1 : search_similar_events_and_products_openai
            { chat := o.chat, search := fun _ => Except.error e }
            (splitKeywords rawBase) = [] := rfl
        have hc2 : search_similar_events_and_products_openai
            { chat := o.chat, search := fun _ => Except.ok "" }
            (splitKeywords rawBase) = [] := rfl
        rw [hc1, hc2]
        simp only [linkKeywordsLoop,
          summarizeLoop_congr { chat := o.chat, search := fun _ => Except.error e }
            { chat := o.chat, search := fun _ => Except.ok "" } rfl]

/-- The search-response scan is the filter of the "http" lines mapped
through the line parser. -/
lemma collectLinks_eq (lines : List String) :
    collectLinks lines = (lines.filter (fun l => pyContains "http" l)).map parseLine := by
  induction lines with
  | nil => rfl
  | cons line rest ih =>
    by_cases h : pyContains "http" line
    · simp [collectLinks, List.filter_cons, h, ih]
    · simp [collectLinks, List.filter_cons, h, ih]

/-- A separator that does not occur as a substring is never found. -/
lemma splitOnFirstChars_eq_none (sep : List Char) :
    ∀ l, containsSubstrChars sep l = false → splitOnFirstChars sep l = none
  | [], _ => rfl
  | c :: cs, h => by
    rw [containsSubstrChars, Bool.or_eq_false_iff] at h
    simp [splitOnFirstChars, h.1, splitOnFirstChars_eq_none sep cs h.2]

/-- The splitter returns the split at the first separator occurrence: when
the list decomposes as `a ++ sep ++ b` and no occurrence starts before `a`
ends, the result is exactly `(a, b)`. -/
lemma splitOnFirstChars_eq_some (sep : List Char) (hsep : sep ≠ []) :
    ∀ (a l b : List Char), l = a ++ (sep ++ b) →
      (∀ i, i < a.length → sep.isPrefixOf (l.drop i) = false) →
      splitOnFirstChars sep l = some (a, b) := by
  intro a
  induction a with
  | nil =>
    intro l b heq _
    subst heq
    cases sep with
    | nil => exact absurd rfl hsep
    | cons s ss =>
      have hpre : (s :: ss).isPrefixOf (s :: (ss ++ b)) = true :=
        List.isPrefixOf_iff_prefix.mpr ⟨b, by simp⟩
      simp [splitOnFirstChars, hpre, List.drop_left]
  | cons c a' ih =>
    intro l b heq hmin
    subst heq
    have h0 := hmin 0 (by simp)
    simp only [List.cons_append, List.drop_zero] at h0
    have hrec := ih (a' ++ (sep ++ b)) b rfl (fun i hi => by
      have hstep := hmin (i + 1) (by simpa using Nat.succ_lt_succ hi)
      simpa [List.cons_append, List.drop_succ_cons] using hstep)
    simp only [List.cons_append, splitOnFirstChars, List.append_eq, h0, Bool.false_eq_true,
      if_false, hrec]

/-- C2: the inspiration-link parser keeps exactly the lines containing
"http", in order, splits each kept line at its first " - " into stripped
title and url (the whole stripped line serving as both when no separator
occurs), and returns at most 10 pairs; `"Title - http://x.com"` parses to
`("Title","http://x.com")` and the bare `"http://y.com"` to
`("http://y.com","http://y.com")`. -/
theorem inspiration_link_parsing_spec (content line line2 a b : String) :
    parseLinks content
      = (((splitLines content).filter (fun l => pyContains "http" l)).map parseLine).take 10
    ∧ (parseLinks content).length ≤ 10
    ∧ (line.data = a.data ++ ((" - ").data ++ b.data) →
        (∀ i, i < a.data.length → (" - ").data.isPrefixOf (line.data.drop i) = false) →
        parseLine line = (pyStrip a, pyStrip b))
    ∧ (pyContains " - " line2 = false →
        parseLine line2 = (pyStrip line2, pyStrip line2))
    ∧ parseLine "Title - http://x.com" = ("Title", "http://x.com")
    ∧ parseLine "http://y.com" = ("http://y.com", "http://y.com") := by
  refine ⟨?_, ?_, fun heq hmin => ?_, fun hno => ?_, by decide, by decide⟩
  · rw [parseLinks, collectLinks_eq]
  · exact (List.length_take_le _ _).trans (Nat.le_refl 10)
  · rw [parseLine, pySplit1,
      splitOnFirstChars_eq_some (" - ").data (by decide) a.data line.data b.data heq hmin]
    rfl
  · rw [parseLine, pySplit1, splitOnFirstChars_eq_none (" - ").data line2.data hno]
    rfl

/-- Each batch of draws from a duplicate-free population yields the requested
number of distinct elements of the population. -/
lemma drawAux_spec (choice : Nat → Nat) :
    ∀ (k i : Nat) (pop : List String), pop.Nodup → k ≤ pop.length →
      (drawAux choice k i pop).length = k ∧ (drawAux choice k i pop).Nodup ∧
        ∀ x ∈ drawAux choice k i pop, x ∈ pop := by
  intro k
  induction k with
  | zero => intro i pop _ _; exact ⟨rfl, List.nodup_nil, by simp [drawAux]⟩
  | succ k ih =>
    intro i pop hnd hk
    cases pop with
    | nil => simp at hk
    | cons p ps =>
      have hlen : 0 < (p :: ps).length := by simp
      have hj : choice i % (p :: ps).length < (p :: ps).length := Nat.mod_lt _ hlen
      have hx : (p :: ps).getD (choice i % (p :: ps).length) p ∈ p :: ps := by
        rw [List.getD_eq_getElem?_getD, List.getElem?_eq_getElem hj]
        exact List.getElem_mem hj
      have herase : ((p :: ps).erase ((p :: ps).getD (choice i % (p :: ps).length) p)).length
          = (p :: ps).length - 1 := List.length_erase_of_mem hx
      have hk' : k ≤ ((p :: ps).erase ((p :: ps).getD (choice i % (p :: ps).length) p)).length := by
        rw [herase]; omega
      have hnd' := hnd.erase ((p :: ps).getD (choice i % (p :: ps).length) p)
      obtain ⟨ihlen, ihnd, ihsub⟩ := ih (i + 1)
        ((p :: ps).erase ((p :: ps).getD (choice i % (p :: ps).length) p)) hnd' hk'
      refine ⟨by rw [drawAux, List.length_cons, ihlen], ?_, ?_⟩
      · rw [drawAux, List.nodup_cons]
        refine ⟨fun hmem => ?_, ihnd⟩
        have := (hnd.mem_erase_iff).mp (ihsub _ hmem)
        exact this.1 rfl
      · intro x hxmem
        rw [drawAux, List.mem_cons] at hxmem
        rcases hxmem with h | h
        · rw [h]; exact hx
        · exact List.erase_subset _ _ (ihsub x h)

/-- C7: with a catalog of at least 4 products, sampling succeeds and yields
exactly 4 distinct names that are keys of the catalog; with fewer than 4
products it fails with the insufficient-catalog error, and the workflow
surfaces that error message instead of any partial result. -/
theorem catalog_sampling_spec (catalog : List (String × String)) (o : Oracle)
    (sampleChoice : Nat → Nat) (ideaChoice : Nat) (paragraph : String)
    (hnd : (catalog.map Prod.fst).Nodup) :
    (4 ≤ catalog.length →
      ∃ names, randomSample (catalog.map Prod.fst) 4 sampleChoice = Except.ok names
        ∧ names.length = 4 ∧ names.Nodup ∧ ∀ x ∈ names, x ∈ catalog.map Prod.fst)
    ∧ (catalog.length < 4 →
        randomSample (catalog.map Prod.fst) 4 sampleChoice
          = Except.error InsufficientCatalogError
        ∧ (pyStrip paragraph ≠ "" →
            main_workflow catalog o sampleChoice ideaChoice paragraph
              = ("❌ Error selecting products: " ++ InsufficientCatalogError,
                 [Event.sampling]))) := by
  constructor
  · intro h4
    have hlen : 4 ≤ (catalog.map Prod.fst).length := by simpa using h4
    obtain ⟨hl, hn, hs⟩ := drawAux_spec sampleChoice 4 0 (catalog.map Prod.fst) hnd hlen
    refine ⟨drawAux sampleChoice 4 0 (catalog.map Prod.fst), ?_, hl, hn, hs⟩
    rw [randomSample, if_pos hlen]
  · intro h4
    have hlen : ¬ 4 ≤ (catalog.map Prod.fst).length := by simpa using Nat.not_le.mpr h4
    have herr : randomSample (catalog.map Prod.fst) 4 sampleChoice
        = Except.error InsufficientCatalogError := by rw [randomSample, if_neg hlen]
    refine ⟨herr, fun hp => ?_⟩
    rw [main_workflow, if_neg hp, herr]

/-- Witness for C7 on a concrete four-product catalog. -/
theorem catalog_sampling_spec_witness :
    ∃ names, randomSample ["a", "b", "c", "d"] 4 (fun i => i) = Except.ok names
      ∧ names.length = 4 ∧ names.Nodup
      ∧ ∀ x ∈ names, x ∈ ["a", "b", "c", "d"] := by
  have h := (catalog_sampling_spec
    [("a", "1"), ("b", "2"), ("c", "3"), ("d", "4")] stubOracle (fun i => i) 0 "x"
    (by decide)).1 (by decide)
  simpa using h

/-- Correctness of the substring test. -/
lemma containsSubstrChars_iff (needle l : List Char) :
    containsSubstrChars needle l = true ↔ needle <:+: l := by
  induction l with
  | nil => simp [containsSubstrChars, List.isEmpty_iff, List.infix_nil]
  | cons c cs ih =>
    simp [containsSubstrChars, List.infix_cons_iff, List.isPrefixOf_iff_prefix, ih]

/-- Python `needle in s` agrees with list-infix on the characters. -/
lemma pyContains_iff (needle s : String) :
    pyContains needle s = true ↔ needle.data <:+: s.data :=
  containsSubstrChars_iff needle.data s.data

/-- C8: the derived game clause is appended to the idea prompt exactly when
some keyword contains the substring "game"; with no such keyword the
appended clause is the empty string, and the prompt is the fixed template
around that clause. -/
theorem game_clause_appended_iff (all_keywords : List String)
    (paragraph product_info : String) (search_links : List (String × String))
    (idea_count : Nat) :
    (game_instruction all_keywords = gameClause
      ↔ ∃ kw ∈ all_keywords, ("game").data <:+: kw.data)
    ∧ (game_instruction all_keywords = ""
      ↔ ¬ ∃ kw ∈ all_keywords, ("game").data <:+: kw.data)
    ∧ ideaPrompt paragraph product_info search_links all_keywords idea_count
        = (ideaPromptP1 ++ product_info ++ ideaPromptP2 ++ Nat.repr idea_count
            ++ ideaPromptP3 ++ paragraph ++ ideaPromptP4 ++ searchSummary search_links
            ++ ideaPromptP5a ++ mustIncludeGameLine ++ ideaPromptP5b)
          ++ game_instruction all_keywords ++ ideaPromptP6 := by
  have hany : (all_keywords.any (fun kw => pyContains "game" kw) = true)
      ↔ ∃ kw ∈ all_keywords, ("game").data <:+: kw.data := by
    simp [List.any_eq_true, pyContains_iff]
  refine ⟨?_, ?_, ?_⟩
  · by_cases hb : all_keywords.any (fun kw => pyContains "game" kw) = true
    · simp only [game_instruction, hb, if_true]
      exact iff_of_true trivial (hany.mp hb)
    · simp only [game_instruction, hb, Bool.false_eq_true, if_false]
      exact iff_of_false (by decide) (fun hex => hb (hany.mpr hex))
  · by_cases hb : all_keywords.any (fun kw => pyContains "game" kw) = true
    · simp only [game_instruction, hb, if_true]
      exact iff_of_false (by decide) (fun hex => hex (hany.mp hb))
    · simp only [game_instruction, hb, Bool.false_eq_true, if_false]
      exact iff_of_true trivial (fun hex => hb (hany.mpr hex))
  · apply String.ext
    simp [ideaPrompt, String.data_append, List.append_assoc]

/-- C9: the prompt built by `generate_event_ideas` always contains the
hardcoded requirement "At least two game-related ideas" in its
"You must include" section, whatever the keywords are. -/
theorem game_line_always_in_prompt (paragraph product_info : String)
    (search_links : List (String × String)) (all_keywords : List String)
    (idea_count : Nat) :
    pyContains mustIncludeGameLine
        (ideaPrompt paragraph product_info search_links all_keywords idea_count) = true
    ∧ mustIncludeGameLine.data
        <:+: (ideaPrompt paragraph product_info search_links all_keywords idea_count).data := by
  have hinf : mustIncludeGameLine.data
      <:+: (ideaPrompt paragraph product_info search_links all_keywords idea_count).data := by
    refine ⟨(ideaPromptP1 ++ product_info ++ ideaPromptP2 ++ Nat.repr idea_count
        ++ ideaPromptP3 ++ paragraph ++ ideaPromptP4 ++ searchSummary search_links
        ++ ideaPromptP5a).data,
      (ideaPromptP5b ++ game_instruction all_keywords ++ ideaPromptP6).data, ?_⟩
    simp [ideaPrompt, String.data_append, List.append_assoc]
  exact ⟨(pyContains_iff _ _).mpr hinf, hinf⟩
